import Mathlib

/-!
# Host orchestration of the Heston Monte-Carlo pricer (`monteHestonSim.c`)

A shallow embedding of `main` from `monteHestonSim.c`.  The host program is a
straight-line sequence of OpenCL runtime calls with early exits; it is embedded
as a function from

* the option stream that `getopt` yields for the command line, and
* an environment `Env` recording what every external call returns in this run,

to an `Outcome`: the trace of externally visible actions (runtime calls and
`printf`s) in program order, together with the exit status.

`float`/`double` values are carried in an arbitrary division ring `α` with the
square root and `atof` passed in as functions; control flow never depends on
them.  Rounding is not modelled: the arithmetic of lines 393-394 is recorded
with the exact operations of `α`, so the values in the `Expected Payoff` line
stand for the formula, not for the binary floating-point results, and no
statement below is about those values.  The `clock ()` readings, the `malloc` of the two result floats and the
reading of the kernel source after a successful `fopen` have no effect on the
actions recorded here and are left out.
-/

namespace HestonHost

/-! ## Constants of the source -/

/-- Pricing selector `#define PRICE 0`. -/
def PRICE : Int := 0
/-- Pricing selector `#define CALL 1`. -/
def CALL : Int := 1
/-- Pricing selector `#define PUT 2`. -/
def PUT : Int := 2
/-- OpenCL status `CL_SUCCESS`. -/
def CL_SUCCESS : Int := 0
/-- Value of `EXIT_FAILURE`. -/
def EXIT_FAILURE : Int := 1

/-! ## Machine integers -/

/-- Conversion of an integer value to `int` (32-bit two's complement wrap). -/
def toInt32 (x : Int) : Int := (x + 2 ^ 31) % 2 ^ 32 - 2 ^ 31

/-- Conversion of an `int` to `size_t` (64-bit, value taken modulo `2^64`). -/
def toSizeT (x : Int) : Nat := (x % 2 ^ 64).toNat

/-- Product of two `size_t` values. -/
def mulSizeT (a b : Nat) : Nat := (a * b) % 2 ^ 64

/-- The bitwise `|` of the C source on `int` status codes. -/
def bor (a b : Int) : Int := Int.lor a b

/-- The statement `err = e;`: the old value of `err` is dropped. -/
def assign (_err e : Int) : Int := e

/-- The statement `err |= e;`. -/
def orAssign (err e : Int) : Int := bor err e

/-! ## C library routines used by option processing -/

/-- Recognises the white space skipped by `strtol`. -/
def isspace (c : Char) : Bool := c.toNat = 32 || (9 ≤ c.toNat && c.toNat ≤ 13)

/-- Recognises a decimal digit. -/
def isdigit (c : Char) : Bool := 48 ≤ c.toNat && c.toNat ≤ 57

/-- Value of the longest run of leading decimal digits, continuing from `acc`. -/
def digitsValue : List Char → Nat → Nat
  | [], acc => acc
  | c :: cs, acc => if isdigit c then digitsValue cs (10 * acc + (c.toNat - 48)) else acc

/-- Base-10 `strtol`: skip white space, read an optional sign and the leading
digits, saturate to the range of `long`.  Text without a leading number gives 0. -/
def strtol (s : List Char) : Int :=
  match s.dropWhile isspace with
  | [] => 0
  | c :: r =>
    if c = '-' then max (-(digitsValue r 0 : Int)) (-(2 ^ 63))
    else if c = '+' then min (digitsValue r 0 : Int) (2 ^ 63 - 1)
    else min (digitsValue (c :: r) 0 : Int) (2 ^ 63 - 1)

/-- Library `atoi`, that is `(int) strtol (s, NULL, 10)`. -/
def atoi (s : String) : Int := toInt32 (strtol s.toList)

/-- The locals of `main` that the `getopt` loop assigns. -/
structure Config (α : Type) where
  user_work_groups : Int
  log_2_size : Int
  cpu : Bool
  verbose : Bool
  payoff : Int
  initial_price : α
  r : α
  mu : α
  lambda : α
  sigma : α
  divisions : Int
  strike : α

section Parse

variable {α : Type} [DivisionRing α]

/-- Initial values of the locals, as declared at the top of `main`. -/
def Config.initial : Config α where
  user_work_groups := 0
  log_2_size := 10
  cpu := false
  verbose := false
  payoff := PRICE
  initial_price := 10
  r := 0.05
  mu := 0.2
  lambda := 1.2
  sigma := 0.1
  divisions := 500
  strike := 10

/-- One iteration of the `switch (opt)` in the `getopt` loop.  `o.1` is the
character returned by `getopt`, `o.2` the text in `optarg`.  `none` is the
`exit(1)` of case `h`; characters without a case (such as `?`) change nothing. -/
def optionCase (atof : String → α) (c : Config α) (o : Char × String) : Option (Config α) :=
  if o.1 = 'g' then some { c with user_work_groups := atoi o.2 }
  else if o.1 = 'i' then some { c with initial_price := atof o.2 }
  else if o.1 = 'c' then some { c with cpu := true }
  else if o.1 = 'v' then some { c with verbose := true }
  else if o.1 = 'h' then none
  else if o.1 = 'r' then some { c with r := atof o.2 }
  else if o.1 = 'm' then some { c with mu := atof o.2 }
  else if o.1 = 'l' then some { c with lambda := atof o.2 }
  else if o.1 = 's' then some { c with sigma := atof o.2 }
  else if o.1 = 'k' then some { c with strike := atof o.2 }
  else if o.1 = 'p' then some { c with log_2_size := atoi o.2 }
  else if o.1 = 'd' then some { c with divisions := atoi o.2 }
  else if o.1 = 'P' then some { c with payoff := PUT }
  else if o.1 = 'C' then some { c with payoff := CALL }
  else some c

/-- The `while ((opt = getopt (...)) != -1)` loop over the option stream. -/
def getoptLoop (atof : String → α) : Config α → List (Char × String) → Option (Config α)
  | c, [] => some c
  | c, o :: os =>
    match optionCase atof c o with
    | none => none
    | some c1 => getoptLoop atof c1 os

end Parse

/-! ## Externally visible actions -/

/-- Entry points of the kernel source named in the `clCreateKernel` calls. -/
inductive KernelName
  | uniformSeeds
  | hestonSimulation
  | meanAndStandardDeviation
  | straightPrice
  | vanillaCall
  | vanillaPut
  deriving DecidableEq, Repr, Fintype

/-- The four `cl_kernel` variables of `main`. -/
inductive KernelVar
  | seeds_kernel
  | paths_kernel
  | payoff_kernel
  | mean_stddev_kernel
  deriving DecidableEq, Repr, Fintype

/-- The three `cl_mem` variables of `main`. -/
inductive BufferVar
  | seed_output
  | price_output
  | mean_stddev
  deriving DecidableEq, Repr, Fintype

/-- The format strings of the `printf` calls of `main`, one constructor each;
`timing i` is the `i`-th line of the verbose timing report. -/
inductive Text
  | usage
  | usingInitialPrice
  | usingDrift
  | usingMeanReversionLevel
  | usingMeanReversionRate
  | simulatingPaths
  | callBanner
  | putBanner
  | priceBanner
  | noDevice
  | usingDevice
  | noContext
  | noCommandQueue
  | noSourceFile
  | noProgram
  | buildFailed
  | buildLog
  | seedsKernelFailed
  | pathsKernelFailed
  | meanKernelFailed
  | pricingFunctionError
  | payoffKernelFailed
  | noDeviceMemory
  | seedArgsFailed
  | pathArgsFailed
  | payoffArgsFailed
  | meanArgsFailed
  | workGroupInfoFailed
  | maximumForDevice
  | usingWorkGroups
  | copyFailed
  | payoffStandardDeviation
  | expectedPayoff
  | timing (i : Nat)
  deriving DecidableEq, Repr

/-- A value handed to `printf` or bound with `clSetKernelArg`. -/
inductive Arg (α : Type)
  | int (v : Int)
  | float (v : α)
  | mem (b : BufferVar)
  | str (s : String)

/-- One externally visible action of `main`. -/
inductive Event (α : Type)
  | printf (fmt : Text) (args : List (Arg α))
  | clGetDeviceIDs (cpu : Bool)
  | clGetDeviceInfo
  | clCreateContext
  | clCreateCommandQueue
  | fopen
  | clCreateProgramWithSource
  | clBuildProgram
  | clGetProgramBuildInfo
  | clCreateKernel (var : KernelVar) (name : KernelName)
  | clCreateBuffer (var : BufferVar) (bytes : Nat)
  | clSetKernelArg (k : KernelVar) (index : Nat) (value : Arg α)
  | clGetKernelWorkGroupInfo (k : KernelVar)
  | clEnqueueTask (k : KernelVar)
  | clEnqueueBarrier
  | clEnqueueNDRangeKernel (k : KernelVar) (global_work_size local_work_size : Nat)
  | clFinish
  | clEnqueueReadBuffer (b : BufferVar) (blocking : Bool) (bytes : Nat)
  | clReleaseMemObject (b : BufferVar)
  | clReleaseProgram
  | clReleaseKernel (k : KernelVar)
  | clReleaseCommandQueue
  | clReleaseContext

/-- What each external call returns in one run.  Handles are numbers with 0 for
`NULL`; status codes are `int`s with `CL_SUCCESS = 0`.  Every call site of
`main` runs at most once, so one answer per call site describes a run; the
three `clEnqueueBarrier` calls are told apart by their position 0, 1, 2. -/
structure Env (α : Type) where
  rand : Int
  clGetDeviceIDs : Int
  device_name : String
  clCreateContext : Nat
  clCreateCommandQueue : Nat
  fopen : Nat
  clCreateProgramWithSource : Nat
  clBuildProgram : Int
  build_log : String
  clCreateKernel : KernelName → Nat × Int
  clCreateBuffer : BufferVar → Nat
  clSetKernelArg : KernelVar → Nat → Int
  clGetKernelWorkGroupInfo : Int
  work_group_size : Nat
  clEnqueueTask : KernelVar → Int
  clEnqueueBarrier : Nat → Int
  clEnqueueNDRangeKernel : KernelVar → Int
  clFinish : Int
  clEnqueueReadBuffer : Int
  results : α × α

/-- Trace of actions in program order and the exit status of the process. -/
structure Outcome (α : Type) where
  trace : List (Event α)
  status : Int

/-- Perform the actions `es`, then continue as `o`. -/
def emit {α : Type} (es : List (Event α)) (o : Outcome α) : Outcome α :=
  ⟨es ++ o.trace, o.status⟩

/-- Perform the actions `es`, then end the process with `code`. -/
def halt {α : Type} (es : List (Event α)) (code : Int) : Outcome α :=
  ⟨es, code⟩

/-- The `printf` calls guarded by `if (verbose)`. -/
def verbosePrintf {α : Type} (verbose : Bool) (lines : List (Text × List (Arg α))) :
    List (Event α) :=
  if verbose then lines.map (fun l => Event.printf l.1 l.2) else []

/-! ## Sizing -/

/-- `data_size = pow (2, log_2_size)`, a `double` stored into an `int`.
For `0 ≤ log_2_size ≤ 30` the power is an integer in range and is stored
exactly.  A negative exponent gives a value in `[0, 1)`, stored as 0.  From 31
on the power is outside the range of `int` and C leaves the conversion
undefined; this embedding takes the result of the x86 conversion instruction,
`INT_MIN`. -/
def data_size (log_2_size : Int) : Int :=
  if log_2_size < 0 then 0
  else if log_2_size ≤ 30 then 2 ^ log_2_size.toNat
  else -(2 ^ 31)

/-- `work_count = data_size`, an `int` stored into a `size_t`. -/
def work_count (log_2_size : Int) : Nat := toSizeT (data_size log_2_size)

/-- The override of lines 353-356: `work_groups` holds the device maximum, and
`if (user_work_groups > 0 && user_work_groups < work_groups)` replaces it by
the user value.  The second comparison is made in `size_t`. -/
def work_groups (user_work_groups : Int) (device_max : Nat) : Nat :=
  if user_work_groups > 0 ∧ toSizeT user_work_groups < device_max then
    toSizeT user_work_groups
  else device_max

/-- Kernel chosen by `switch (payoff)` of lines 268-282; `none` is its
`default:` branch. -/
def payoffKernelName (payoff : Int) : Option KernelName :=
  if payoff = PRICE then some KernelName.straightPrice
  else if payoff = CALL then some KernelName.vanillaCall
  else if payoff = PUT then some KernelName.vanillaPut
  else none

/-- Banner chosen by the verbose `switch (payoff)` of lines 154-165 (no default). -/
def payoffBanner {α : Type} (payoff : Int) (strike : α) : List (Text × List (Arg α)) :=
  if payoff = CALL then [(Text.callBanner, [Arg.float strike])]
  else if payoff = PUT then [(Text.putBanner, [Arg.float strike])]
  else if payoff = PRICE then [(Text.priceBanner, [])]
  else []

section Run

variable {α : Type} [DivisionRing α]

/-- Half-width of the confidence band,
`band_width = 1.96 * results[1] / sqrt (data_size)`, in the exact arithmetic of
`α`.  The source evaluates the right-hand side in `double` and stores it in a
`float`; that rounding is not represented. -/
def band_width (sqrt : α → α) (stddev : α) (data_size : Int) : α :=
  1.96 * stddev / sqrt (data_size : α)

/-- The three values handed to the final `printf`:
`results[0], results[0] - band_width, results[0] + band_width`, in the exact
arithmetic of `α`.  The source subtracts and adds in `float`; that rounding is
not represented. -/
def reported (sqrt : α → α) (results : α × α) (data_size : Int) : List (Arg α) :=
  [Arg.float results.1,
   Arg.float (results.1 - band_width sqrt results.2 data_size),
   Arg.float (results.1 + band_width sqrt results.2 data_size)]

/-- The ten lines of the verbose timing report (their values are clock readings). -/
def timingLines : List (Text × List (Arg α)) :=
  (List.range 10).map (fun i => (Text.timing i, []))

/-- Lines 410-420, "Shutdown and cleanup", then `return 0`. -/
def cleanup : Outcome α :=
  halt [Event.clReleaseMemObject BufferVar.seed_output,
        Event.clReleaseProgram,
        Event.clReleaseKernel KernelVar.seeds_kernel,
        Event.clReleaseCommandQueue,
        Event.clReleaseContext] 0

/-- Lines 382-409: blocking read of the two result floats, the check of its
status, and the report.  `err` is the value the variable holds on entry; line
383 assigns to it before it is tested. -/
def readBack (sqrt : α → α) (cfg : Config α) (env : Env α) (err : Int) : Outcome α :=
  emit [Event.clEnqueueReadBuffer BufferVar.mean_stddev true (mulSizeT 4 2)] <|
  let err := assign err env.clEnqueueReadBuffer
  if err ≠ CL_SUCCESS then
    halt [Event.printf Text.copyFailed [Arg.int err]] 1
  else
    emit (verbosePrintf cfg.verbose
      [(Text.payoffStandardDeviation, [Arg.float env.results.2])]) <|
    emit [Event.printf Text.expectedPayoff
      (reported sqrt env.results (data_size cfg.log_2_size))] <|
    emit (verbosePrintf cfg.verbose timingLines) <|
    cleanup

/-- Value of `err` after lines 360-372: the statuses of the four dispatches,
the three barriers and `clFinish`, or-ed together. -/
def executeErr (env : Env α) (err : Int) : Int :=
  let err := assign err (env.clEnqueueTask KernelVar.seeds_kernel)
  let err := orAssign err (env.clEnqueueBarrier 0)
  let err := orAssign err (env.clEnqueueNDRangeKernel KernelVar.paths_kernel)
  let err := orAssign err (env.clEnqueueBarrier 1)
  let err := orAssign err (env.clEnqueueNDRangeKernel KernelVar.payoff_kernel)
  let err := orAssign err (env.clEnqueueBarrier 2)
  let err := orAssign err (env.clEnqueueTask KernelVar.mean_stddev_kernel)
  orAssign err env.clFinish

/-- Lines 360-372: the four stages with their barriers and `clFinish`.  There
is no test of `err` between line 372 and the read-back, which receives the
accumulated value. -/
def execute (sqrt : α → α) (cfg : Config α) (env : Env α) (err : Int) (local_size : Nat) :
    Outcome α :=
  emit [Event.clEnqueueTask KernelVar.seeds_kernel,
        Event.clEnqueueBarrier,
        Event.clEnqueueNDRangeKernel KernelVar.paths_kernel
          (work_count cfg.log_2_size) local_size,
        Event.clEnqueueBarrier,
        Event.clEnqueueNDRangeKernel KernelVar.payoff_kernel
          (work_count cfg.log_2_size) local_size,
        Event.clEnqueueBarrier,
        Event.clEnqueueTask KernelVar.mean_stddev_kernel,
        Event.clFinish] <|
  readBack sqrt cfg env (executeErr env err)

/-- Lines 344-358: query of the device maximum and the user override. -/
def chooseWorkGroups (sqrt : α → α) (cfg : Config α) (env : Env α) (err : Int) : Outcome α :=
  emit [Event.clGetKernelWorkGroupInfo KernelVar.paths_kernel] <|
  let err := assign err env.clGetKernelWorkGroupInfo
  if err ≠ CL_SUCCESS then
    halt [Event.printf Text.workGroupInfoFailed [Arg.int err]] 1
  else
    emit (verbosePrintf cfg.verbose
      [(Text.maximumForDevice, [Arg.int (toInt32 env.work_group_size)])]) <|
    emit (verbosePrintf cfg.verbose
      [(Text.usingWorkGroups,
        [Arg.int (toInt32 (work_groups cfg.user_work_groups env.work_group_size))])]) <|
    execute sqrt cfg env err (work_groups cfg.user_work_groups env.work_group_size)

/-- Value of `err` tested at line 306, after lines 302-305:
`err = 0; err = clSetKernelArg (.., 0, ..); err = clSetKernelArg (.., 1, ..);
err |= clSetKernelArg (.., 2, ..);`. -/
def seedArgsErr (env : Env α) : Int :=
  let err := 0
  let err := assign err (env.clSetKernelArg KernelVar.seeds_kernel 0)
  let err := assign err (env.clSetKernelArg KernelVar.seeds_kernel 1)
  orAssign err (env.clSetKernelArg KernelVar.seeds_kernel 2)

/-- Value of `err` tested at line 319. -/
def pathArgsErr (env : Env α) : Int :=
  let err := seedArgsErr env
  let err := orAssign err (env.clSetKernelArg KernelVar.paths_kernel 0)
  let err := orAssign err (env.clSetKernelArg KernelVar.paths_kernel 1)
  let err := orAssign err (env.clSetKernelArg KernelVar.paths_kernel 2)
  let err := orAssign err (env.clSetKernelArg KernelVar.paths_kernel 3)
  let err := orAssign err (env.clSetKernelArg KernelVar.paths_kernel 4)
  let err := orAssign err (env.clSetKernelArg KernelVar.paths_kernel 5)
  let err := orAssign err (env.clSetKernelArg KernelVar.paths_kernel 6)
  orAssign err (env.clSetKernelArg KernelVar.paths_kernel 7)

/-- Value of `err` tested at line 327. -/
def payoffArgsErr (env : Env α) : Int :=
  let err := pathArgsErr env
  let err := orAssign err (env.clSetKernelArg KernelVar.payoff_kernel 0)
  orAssign err (env.clSetKernelArg KernelVar.payoff_kernel 1)

/-- Value of `err` tested at line 337. -/
def meanArgsErr (env : Env α) : Int :=
  let err := payoffArgsErr env
  let err := orAssign err (env.clSetKernelArg KernelVar.mean_stddev_kernel 0)
  let err := orAssign err (env.clSetKernelArg KernelVar.mean_stddev_kernel 1)
  orAssign err (env.clSetKernelArg KernelVar.mean_stddev_kernel 2)

/-- Lines 302-341: binding of the arguments of the four kernels, with the test
of `err` after each kernel. -/
def bindArguments (sqrt : α → α) (cfg : Config α) (env : Env α) : Outcome α :=
  emit [Event.clSetKernelArg KernelVar.seeds_kernel 0 (Arg.int env.rand),
        Event.clSetKernelArg KernelVar.seeds_kernel 1 (Arg.int (data_size cfg.log_2_size)),
        Event.clSetKernelArg KernelVar.seeds_kernel 2 (Arg.mem BufferVar.seed_output)] <|
  if seedArgsErr env ≠ CL_SUCCESS then
    halt [Event.printf Text.seedArgsFailed [Arg.int (seedArgsErr env)]] 1
  else
  emit [Event.clSetKernelArg KernelVar.paths_kernel 0 (Arg.mem BufferVar.seed_output),
        Event.clSetKernelArg KernelVar.paths_kernel 1 (Arg.mem BufferVar.price_output),
        Event.clSetKernelArg KernelVar.paths_kernel 2 (Arg.float cfg.initial_price),
        Event.clSetKernelArg KernelVar.paths_kernel 3 (Arg.float cfg.r),
        Event.clSetKernelArg KernelVar.paths_kernel 4 (Arg.float cfg.mu),
        Event.clSetKernelArg KernelVar.paths_kernel 5 (Arg.float cfg.lambda),
        Event.clSetKernelArg KernelVar.paths_kernel 6 (Arg.float cfg.sigma),
        Event.clSetKernelArg KernelVar.paths_kernel 7 (Arg.int cfg.divisions)] <|
  if pathArgsErr env ≠ CL_SUCCESS then
    halt [Event.printf Text.pathArgsFailed [Arg.int (pathArgsErr env)]] 1
  else
  emit [Event.clSetKernelArg KernelVar.payoff_kernel 0 (Arg.mem BufferVar.price_output),
        Event.clSetKernelArg KernelVar.payoff_kernel 1 (Arg.float cfg.strike)] <|
  if payoffArgsErr env ≠ CL_SUCCESS then
    halt [Event.printf Text.payoffArgsFailed [Arg.int (payoffArgsErr env)]] 1
  else
  emit [Event.clSetKernelArg KernelVar.mean_stddev_kernel 0
          (Arg.int (data_size cfg.log_2_size)),
        Event.clSetKernelArg KernelVar.mean_stddev_kernel 1 (Arg.mem BufferVar.price_output),
        Event.clSetKernelArg KernelVar.mean_stddev_kernel 2 (Arg.mem BufferVar.mean_stddev)] <|
  if meanArgsErr env ≠ CL_SUCCESS then
    halt [Event.printf Text.meanArgsFailed [Arg.int (meanArgsErr env)]] 1
  else
  chooseWorkGroups sqrt cfg env (meanArgsErr env)

/-- Lines 291-300: the three device buffers and the test of their handles. -/
def createBuffers (sqrt : α → α) (cfg : Config α) (env : Env α) : Outcome α :=
  emit [Event.clCreateBuffer BufferVar.seed_output
          (mulSizeT 4 (toSizeT (data_size cfg.log_2_size))),
        Event.clCreateBuffer BufferVar.price_output
          (mulSizeT 4 (toSizeT (data_size cfg.log_2_size))),
        Event.clCreateBuffer BufferVar.mean_stddev (mulSizeT 4 2)] <|
  if env.clCreateBuffer BufferVar.seed_output = 0
      ∨ env.clCreateBuffer BufferVar.price_output = 0
      ∨ env.clCreateBuffer BufferVar.mean_stddev = 0 then
    halt [Event.printf Text.noDeviceMemory []] 1
  else
  bindArguments sqrt cfg env

/-- Lines 245-288: creation of the four kernels.  The test after the third
`clCreateKernel` looks at `paths_kernel`, as line 261 does. -/
def createKernels (sqrt : α → α) (cfg : Config α) (env : Env α) : Outcome α :=
  emit [Event.clCreateKernel KernelVar.seeds_kernel KernelName.uniformSeeds] <|
  if (env.clCreateKernel KernelName.uniformSeeds).1 = 0
      ∨ (env.clCreateKernel KernelName.uniformSeeds).2 ≠ CL_SUCCESS then
    halt [Event.printf Text.seedsKernelFailed
      [Arg.int (env.clCreateKernel KernelName.uniformSeeds).2]] 1
  else
  emit [Event.clCreateKernel KernelVar.paths_kernel KernelName.hestonSimulation] <|
  if (env.clCreateKernel KernelName.hestonSimulation).1 = 0
      ∨ (env.clCreateKernel KernelName.hestonSimulation).2 ≠ CL_SUCCESS then
    halt [Event.printf Text.pathsKernelFailed
      [Arg.int (env.clCreateKernel KernelName.hestonSimulation).2]] 1
  else
  emit [Event.clCreateKernel KernelVar.mean_stddev_kernel
          KernelName.meanAndStandardDeviation] <|
  if (env.clCreateKernel KernelName.hestonSimulation).1 = 0
      ∨ (env.clCreateKernel KernelName.meanAndStandardDeviation).2 ≠ CL_SUCCESS then
    halt [Event.printf Text.meanKernelFailed
      [Arg.int (env.clCreateKernel KernelName.meanAndStandardDeviation).2]] 1
  else
  match payoffKernelName cfg.payoff with
  | none => halt [Event.printf Text.pricingFunctionError []] 1
  | some name =>
    emit [Event.clCreateKernel KernelVar.payoff_kernel name] <|
    if (env.clCreateKernel name).1 = 0 ∨ (env.clCreateKernel name).2 ≠ CL_SUCCESS then
      halt [Event.printf Text.payoffKernelFailed [Arg.int (env.clCreateKernel name).2]] 1
    else
    createBuffers sqrt cfg env

/-- Lines 168-243: device, context, command queue, kernel source file, program
and its build. -/
def acquireDevice (sqrt : α → α) (cfg : Config α) (env : Env α) : Outcome α :=
  emit [Event.clGetDeviceIDs cfg.cpu] <|
  if env.clGetDeviceIDs ≠ CL_SUCCESS then
    halt [Event.printf Text.noDevice []] EXIT_FAILURE
  else
  emit [Event.clGetDeviceInfo] <|
  emit (verbosePrintf cfg.verbose [(Text.usingDevice, [Arg.str env.device_name])]) <|
  emit [Event.clCreateContext] <|
  if env.clCreateContext = 0 then
    halt [Event.printf Text.noContext []] EXIT_FAILURE
  else
  emit [Event.clCreateCommandQueue] <|
  if env.clCreateCommandQueue = 0 then
    halt [Event.printf Text.noCommandQueue []] EXIT_FAILURE
  else
  emit [Event.fopen] <|
  if env.fopen = 0 then
    halt [Event.printf Text.noSourceFile []] EXIT_FAILURE
  else
  emit [Event.clCreateProgramWithSource] <|
  if env.clCreateProgramWithSource = 0 then
    halt [Event.printf Text.noProgram []] EXIT_FAILURE
  else
  emit [Event.clBuildProgram] <|
  if env.clBuildProgram ≠ CL_SUCCESS then
    halt [Event.printf Text.buildFailed [Arg.int env.clBuildProgram],
          Event.clGetProgramBuildInfo,
          Event.printf Text.buildLog [Arg.str env.build_log]] 1
  else
  createKernels sqrt cfg env

/-- Lines 139-166: the verbose echo of the parameters. -/
def echoParameters (cfg : Config α) : List (Event α) :=
  verbosePrintf cfg.verbose
    ([(Text.usingInitialPrice, [Arg.float cfg.initial_price]),
      (Text.usingDrift, [Arg.float cfg.r]),
      (Text.usingMeanReversionLevel, [Arg.float cfg.mu]),
      (Text.usingMeanReversionRate, [Arg.float cfg.lambda]),
      (Text.simulatingPaths,
        [Arg.int (data_size cfg.log_2_size), Arg.int cfg.divisions])]
      ++ payoffBanner cfg.payoff cfg.strike)

/-- The body of `main` from line 139 on, for the locals `cfg` left by option
processing. -/
def run (sqrt : α → α) (cfg : Config α) (env : Env α) : Outcome α :=
  emit (echoParameters cfg) <| acquireDevice sqrt cfg env

/-- The program: `main` applied to the option stream that `getopt` yields for
`argv` (pairs of option character and `optarg`). -/
def main (sqrt : α → α) (atof : String → α) (argv : List (Char × String)) (env : Env α) :
    Outcome α :=
  match getoptLoop atof Config.initial argv with
  | none => halt [Event.printf Text.usage []] 1
  | some cfg => run sqrt cfg env

end Run

/-! ## Observations on traces -/

section Observe

variable {α : Type}

/-- The device resources of `main`. -/
inductive Resource
  | context
  | commands
  | program
  | kernel (k : KernelVar)
  | buffer (b : BufferVar)
  deriving DecidableEq, Repr

/-- Resource released by an action, if it is a release. -/
def Event.released : Event α → Option Resource
  | Event.clReleaseMemObject b => some (Resource.buffer b)
  | Event.clReleaseProgram => some Resource.program
  | Event.clReleaseKernel k => some (Resource.kernel k)
  | Event.clReleaseCommandQueue => some Resource.commands
  | Event.clReleaseContext => some Resource.context
  | _ => none

/-- Resource requested by an action, if it is an acquisition. -/
def Event.acquired : Event α → Option Resource
  | Event.clCreateContext => some Resource.context
  | Event.clCreateCommandQueue => some Resource.commands
  | Event.clCreateProgramWithSource => some Resource.program
  | Event.clCreateKernel k _ => some (Resource.kernel k)
  | Event.clCreateBuffer b _ => some (Resource.buffer b)
  | _ => none

/-- An operation on the command queue, payload of the queue actions. -/
inductive QueueOp
  | task (k : KernelVar)
  | barrier
  | ndrange (k : KernelVar) (global_work_size local_work_size : Nat)
  | finish
  | read (b : BufferVar) (blocking : Bool) (bytes : Nat)
  deriving DecidableEq, Repr

/-- Queue operation performed by an action, if any. -/
def Event.queueOp : Event α → Option QueueOp
  | Event.clEnqueueTask k => some (QueueOp.task k)
  | Event.clEnqueueBarrier => some QueueOp.barrier
  | Event.clEnqueueNDRangeKernel k g l => some (QueueOp.ndrange k g l)
  | Event.clFinish => some QueueOp.finish
  | Event.clEnqueueReadBuffer b bl n => some (QueueOp.read b bl n)
  | _ => none

/-- Arguments of the `Expected Payoff` line, if the action prints it. -/
def Event.result : Event α → Option (List (Arg α))
  | Event.printf Text.expectedPayoff args => some args
  | _ => none

/-- Kernel creation performed by an action, if any. -/
def Event.created : Event α → Option (KernelVar × KernelName)
  | Event.clCreateKernel k n => some (k, n)
  | _ => none

/-- An `int` argument bound by an action, if any. -/
def Event.intArg : Event α → Option (KernelVar × Nat × Int)
  | Event.clSetKernelArg k i (Arg.int v) => some (k, i, v)
  | _ => none

/-- Resources released, in order. -/
def releases (t : List (Event α)) : List Resource := t.filterMap Event.released
/-- Resources acquired, in order. -/
def acquisitions (t : List (Event α)) : List Resource := t.filterMap Event.acquired
/-- Operations on the command queue, in order. -/
def queueOps (t : List (Event α)) : List QueueOp := t.filterMap Event.queueOp
/-- Argument lists of the `Expected Payoff` lines printed. -/
def reportedResults (t : List (Event α)) : List (List (Arg α)) :=
  t.filterMap Event.result
/-- Kernels created, in order. -/
def kernelsCreated (t : List (Event α)) : List (KernelVar × KernelName) :=
  t.filterMap Event.created
/-- The `int` kernel arguments bound, in order. -/
def intArgs (t : List (Event α)) : List (KernelVar × Nat × Int) := t.filterMap Event.intArg

end Observe

/-- An environment in which every device call of `main` succeeds: status
`CL_SUCCESS` from every call that returns one, a handle other than `NULL` from
every call that returns one. -/
def Env.allSucceed {α : Type} (env : Env α) : Prop :=
  env.clGetDeviceIDs = CL_SUCCESS ∧ env.clCreateContext ≠ 0 ∧ env.clCreateCommandQueue ≠ 0
  ∧ env.fopen ≠ 0 ∧ env.clCreateProgramWithSource ≠ 0 ∧ env.clBuildProgram = CL_SUCCESS
  ∧ (∀ n, (env.clCreateKernel n).1 ≠ 0 ∧ (env.clCreateKernel n).2 = CL_SUCCESS)
  ∧ (∀ b, env.clCreateBuffer b ≠ 0)
  ∧ (∀ k, ∀ i ∈ List.range 8, env.clSetKernelArg k i = CL_SUCCESS)
  ∧ env.clGetKernelWorkGroupInfo = CL_SUCCESS
  ∧ (∀ k, env.clEnqueueTask k = CL_SUCCESS)
  ∧ (∀ i ∈ List.range 3, env.clEnqueueBarrier i = CL_SUCCESS)
  ∧ (∀ k, env.clEnqueueNDRangeKernel k = CL_SUCCESS)
  ∧ env.clFinish = CL_SUCCESS
  ∧ env.clEnqueueReadBuffer = CL_SUCCESS

instance {α : Type} (env : Env α) : Decidable env.allSucceed := by
  unfold Env.allSucceed; infer_instance

/-- An environment in which every call succeeds, with device maximum
`device_max` and read-back `results`. -/
def Env.ok {α : Type} (device_max : Nat) (results : α × α) : Env α where
  rand := 16807
  clGetDeviceIDs := 0
  device_name := "device"
  clCreateContext := 1
  clCreateCommandQueue := 1
  fopen := 1
  clCreateProgramWithSource := 1
  clBuildProgram := 0
  build_log := ""
  clCreateKernel := fun _ => (1, 0)
  clCreateBuffer := fun _ => 1
  clSetKernelArg := fun _ _ => 0
  clGetKernelWorkGroupInfo := 0
  work_group_size := device_max
  clEnqueueTask := fun _ => 0
  clEnqueueBarrier := fun _ => 0
  clEnqueueNDRangeKernel := fun _ => 0
  clFinish := 0
  clEnqueueReadBuffer := 0
  results := results

/-! ## Reference definitions used in the statements -/

/-- The last of the flags `-P`, `-C` on the command line, if there is one. -/
def lastPayoffFlag : List (Char × String) → Option Char
  | [] => none
  | o :: os =>
    match lastPayoffFlag os with
    | some c => some c
    | none => if o.1 = 'P' ∨ o.1 = 'C' then some o.1 else none

/-- Entry point that goes with a payoff flag: `straightPrice` without a flag,
`vanillaPut` for `-P`, `vanillaCall` for `-C`. -/
def expectedKernel : Option Char → KernelName
  | none => KernelName.straightPrice
  | some c => if c = 'P' then KernelName.vanillaPut else KernelName.vanillaCall

/-- The text given to the last `-g` on the command line, if there is one. -/
def lastOverrideText : List (Char × String) → Option String
  | [] => none
  | o :: os =>
    match lastOverrideText os with
    | some s => some s
    | none => if o.1 = 'g' then some o.2 else none

/-- The user override: `atoi` of the text given to the last `-g`, 0 when `-g`
is absent. -/
def storedOverride (argv : List (Char × String)) : Int :=
  match lastOverrideText argv with
  | none => 0
  | some s => atoi s

/-- The five releases of the cleanup block, in order. -/
def cleanupReleases : List Resource :=
  [Resource.buffer BufferVar.seed_output, Resource.program,
   Resource.kernel KernelVar.seeds_kernel, Resource.commands, Resource.context]

/-- Seed task, barrier, path simulation over `n` lanes in groups of `w`,
barrier, payoff over `n` lanes in groups of `w`, barrier, reduction task,
finish, and then the blocking read of the two result floats (8 bytes). -/
def pipeline (n w : Nat) : List QueueOp :=
  [QueueOp.task KernelVar.seeds_kernel, QueueOp.barrier,
   QueueOp.ndrange KernelVar.paths_kernel n w, QueueOp.barrier,
   QueueOp.ndrange KernelVar.payoff_kernel n w, QueueOp.barrier,
   QueueOp.task KernelVar.mean_stddev_kernel, QueueOp.finish,
   QueueOp.read BufferVar.mean_stddev true 8]

/-- The three ways a run of the body of `main` can end: before anything is
enqueued, after a failed read-back, or normally. -/
def Shape {α : Type} [DivisionRing α] (sqrt : α → α) (cfg : Config α) (env : Env α)
    (o : Outcome α) : Prop :=
  (o.status = 1 ∧ releases o.trace = [] ∧ queueOps o.trace = []
      ∧ reportedResults o.trace = [])
  ∨ (o.status = 1 ∧ releases o.trace = []
      ∧ queueOps o.trace = pipeline (work_count cfg.log_2_size)
          (work_groups cfg.user_work_groups env.work_group_size)
      ∧ reportedResults o.trace = [])
  ∨ (o.status = 0 ∧ releases o.trace = cleanupReleases
      ∧ queueOps o.trace = pipeline (work_count cfg.log_2_size)
          (work_groups cfg.user_work_groups env.work_group_size)
      ∧ reportedResults o.trace = [reported sqrt env.results (data_size cfg.log_2_size)])

/-- The run in which the device refuses both ND-range dispatches
(`CL_INVALID_WORK_GROUP_SIZE`, -54, as for a local size that does not divide
the global size) and every other call succeeds. -/
def Env.ndrangeRejected : Env ℝ :=
  { Env.ok 256 ((10 : ℝ), 0) with clEnqueueNDRangeKernel := fun _ => -54 }

/-- The run in which binding argument 0 of the seeding kernel fails
(`CL_INVALID_ARG_SIZE`, -51) and every other call succeeds. -/
def Env.seedBindingFails : Env ℝ :=
  { Env.ok 256 ((10 : ℝ), 0) with
    clSetKernelArg := fun k i => if k = KernelVar.seeds_kernel ∧ i = 0 then -51 else 0 }

/-- The run on a device with maximum `device_max` that refuses both ND-range
dispatches (`CL_INVALID_WORK_GROUP_SIZE`, -54), every other call succeeding. -/
def Env.ndrangeRejectedAt (device_max : Nat) : Env ℝ :=
  { Env.ok device_max ((10 : ℝ), 0) with clEnqueueNDRangeKernel := fun _ => -54 }

/-- The run in which the context is created and the command queue is not. -/
def Env.queueFails : Env ℝ :=
  { Env.ok 256 ((10 : ℝ), 0) with clCreateCommandQueue := 0 }

/-! ## Basic facts -/

section Basic

variable {α : Type}

@[simp] theorem emit_trace (es : List (Event α)) (o : Outcome α) :
    (emit es o).trace = es ++ o.trace := rfl

@[simp] theorem emit_status (es : List (Event α)) (o : Outcome α) :
    (emit es o).status = o.status := rfl

@[simp] theorem halt_trace (es : List (Event α)) (c : Int) : (halt es c).trace = es := rfl

@[simp] theorem halt_status (es : List (Event α)) (c : Int) : (halt es c).status = c := rfl

/-- An observation that ignores `printf` sees nothing in the verbose output. -/
theorem filterMap_verbosePrintf {β : Type} (f : Event α → Option β)
    (hf : ∀ t a, f (Event.printf t a) = none) (v : Bool) (ls : List (Text × List (Arg α))) :
    List.filterMap f (verbosePrintf v ls) = [] := by
  unfold verbosePrintf
  cases v
  · simp
  · simp only [if_true]
    induction ls with
    | nil => rfl
    | cons l ls ih => simp [List.filterMap_cons, hf, ih]

@[simp] theorem released_verbosePrintf (v : Bool) (ls : List (Text × List (Arg α))) :
    List.filterMap Event.released (verbosePrintf v ls) = [] :=
  filterMap_verbosePrintf _ (fun _ _ => rfl) v ls

@[simp] theorem acquired_verbosePrintf (v : Bool) (ls : List (Text × List (Arg α))) :
    List.filterMap Event.acquired (verbosePrintf v ls) = [] :=
  filterMap_verbosePrintf _ (fun _ _ => rfl) v ls

@[simp] theorem queueOp_verbosePrintf (v : Bool) (ls : List (Text × List (Arg α))) :
    List.filterMap Event.queueOp (verbosePrintf v ls) = [] :=
  filterMap_verbosePrintf _ (fun _ _ => rfl) v ls

@[simp] theorem created_verbosePrintf (v : Bool) (ls : List (Text × List (Arg α))) :
    List.filterMap Event.created (verbosePrintf v ls) = [] :=
  filterMap_verbosePrintf _ (fun _ _ => rfl) v ls

@[simp] theorem intArg_verbosePrintf (v : Bool) (ls : List (Text × List (Arg α))) :
    List.filterMap Event.intArg (verbosePrintf v ls) = [] :=
  filterMap_verbosePrintf _ (fun _ _ => rfl) v ls

/-- The verbose output never contains the `Expected Payoff` line. -/
theorem result_verbosePrintf (v : Bool) (ls : List (Text × List (Arg α)))
    (h : ∀ l ∈ ls, l.1 ≠ Text.expectedPayoff) :
    List.filterMap Event.result (verbosePrintf v ls) = [] := by
  unfold verbosePrintf
  cases v
  · simp
  · simp only [if_true]
    induction ls with
    | nil => rfl
    | cons l ls ih =>
      have h1 : l.1 ≠ Text.expectedPayoff := h l (List.mem_cons_self _ _)
      have h2 := ih (fun x hx => h x (List.mem_cons_of_mem _ hx))
      have h3 : Event.result (Event.printf l.1 l.2) = none := by
        cases hl : l.1 <;> first | rfl | exact absurd hl h1
      simp [List.filterMap_cons, h3, h2]

@[simp] theorem result_verbosePrintf_single (v : Bool) (t : Text) (a : List (Arg α))
    (h : t ≠ Text.expectedPayoff) :
    List.filterMap Event.result (verbosePrintf v [(t, a)]) = [] :=
  result_verbosePrintf v _ (by simpa using h)

@[simp] theorem result_timingLines (v : Bool) :
    List.filterMap Event.result (verbosePrintf v (timingLines : List (Text × List (Arg α))))
      = [] := by
  apply result_verbosePrintf
  intro l hl
  simp only [timingLines, List.mem_map] at hl
  obtain ⟨i, -, rfl⟩ := hl
  simp

@[simp] theorem result_echoParameters [DivisionRing α] (cfg : Config α) :
    List.filterMap Event.result (echoParameters cfg) = [] := by
  apply result_verbosePrintf
  intro l hl
  simp only [List.mem_append, List.mem_cons, List.mem_nil_iff, or_false] at hl
  rcases hl with hl | hl
  · rcases hl with rfl | rfl | rfl | rfl | rfl <;> simp
  · unfold payoffBanner at hl
    split_ifs at hl <;> simp at hl <;> subst hl <;> simp

/-- The statuses that the binding tests look at are all `CL_SUCCESS` when every
call succeeds. -/
theorem meanArgsErr_of_allSucceed {env : Env α} (h : env.allSucceed) :
    seedArgsErr env = 0 ∧ pathArgsErr env = 0 ∧ payoffArgsErr env = 0 ∧ meanArgsErr env = 0 := by
  obtain ⟨-, -, -, -, -, -, -, -, hs, -⟩ := h
  have e : ∀ k i, i < 8 → env.clSetKernelArg k i = 0 := fun k i hi =>
    hs k i (List.mem_range.2 hi)
  have z : bor 0 0 = 0 := rfl
  simp [seedArgsErr, pathArgsErr, payoffArgsErr, meanArgsErr, assign, orAssign, e, z]

/-- The facts that the tests of `main` look at, when every call succeeds. -/
theorem success_facts {env : Env α} (h : env.allSucceed) :
    env.clGetDeviceIDs = 0 ∧ env.clCreateContext ≠ 0 ∧ env.clCreateCommandQueue ≠ 0
    ∧ env.fopen ≠ 0 ∧ env.clCreateProgramWithSource ≠ 0 ∧ env.clBuildProgram = 0
    ∧ (∀ n, (env.clCreateKernel n).1 ≠ 0) ∧ (∀ n, (env.clCreateKernel n).2 = 0)
    ∧ (∀ b, env.clCreateBuffer b ≠ 0)
    ∧ env.clGetKernelWorkGroupInfo = 0 ∧ env.clEnqueueReadBuffer = 0 := by
  obtain ⟨h1, h2, h3, h4, h5, h6, h7, h8, -, h10, -, -, -, -, h15⟩ := h
  exact ⟨h1, h2, h3, h4, h5, h6, fun n => (h7 n).1, fun n => (h7 n).2, h8, h10, h15⟩

end Basic

/-! ## The shape of every run -/

section General

variable {α : Type} [DivisionRing α]

theorem shape_emit {sqrt : α → α} {cfg : Config α} {env : Env α} {es : List (Event α)}
    {o : Outcome α} (h1 : releases es = []) (h2 : queueOps es = [])
    (h3 : reportedResults es = []) (h : Shape sqrt cfg env o) :
    Shape sqrt cfg env (emit es o) := by
  unfold Shape at *
  unfold releases queueOps reportedResults at *
  simpa [h1, h2, h3] using h

theorem shape_halt {sqrt : α → α} {cfg : Config α} {env : Env α} {es : List (Event α)}
    (h1 : releases es = []) (h2 : queueOps es = []) (h3 : reportedResults es = []) :
    Shape sqrt cfg env (halt es 1) :=
  Or.inl ⟨rfl, h1, h2, h3⟩

theorem shape_execute (sqrt : α → α) (cfg : Config α) (env : Env α) (err : Int) :
    Shape sqrt cfg env
      (execute sqrt cfg env err (work_groups cfg.user_work_groups env.work_group_size)) := by
  unfold execute readBack Shape
  simp only []
  split_ifs <;>
    simp_all [releases, queueOps, reportedResults, Event.released, Event.queueOp,
      Event.result, cleanup, cleanupReleases, pipeline, mulSizeT]

theorem shape_chooseWorkGroups (sqrt : α → α) (cfg : Config α) (env : Env α) (err : Int) :
    Shape sqrt cfg env (chooseWorkGroups sqrt cfg env err) := by
  unfold chooseWorkGroups
  simp only []
  repeat' first
    | exact shape_halt rfl rfl rfl
    | exact shape_execute sqrt cfg env _
    | refine shape_emit rfl rfl rfl ?_
    | refine shape_emit (by simp [releases]) (by simp [queueOps])
        (by simp [reportedResults]) ?_
    | split

theorem shape_bindArguments (sqrt : α → α) (cfg : Config α) (env : Env α) :
    Shape sqrt cfg env (bindArguments sqrt cfg env) := by
  unfold bindArguments
  repeat' first
    | exact shape_halt rfl rfl rfl
    | exact shape_chooseWorkGroups sqrt cfg env _
    | refine shape_emit rfl rfl rfl ?_
    | split

theorem shape_createBuffers (sqrt : α → α) (cfg : Config α) (env : Env α) :
    Shape sqrt cfg env (createBuffers sqrt cfg env) := by
  unfold createBuffers
  repeat' first
    | exact shape_halt rfl rfl rfl
    | exact shape_bindArguments sqrt cfg env
    | refine shape_emit rfl rfl rfl ?_
    | split

theorem shape_createKernels (sqrt : α → α) (cfg : Config α) (env : Env α) :
    Shape sqrt cfg env (createKernels sqrt cfg env) := by
  unfold createKernels
  repeat' first
    | exact shape_halt rfl rfl rfl
    | exact shape_createBuffers sqrt cfg env
    | refine shape_emit rfl rfl rfl ?_
    | split

theorem shape_acquireDevice (sqrt : α → α) (cfg : Config α) (env : Env α) :
    Shape sqrt cfg env (acquireDevice sqrt cfg env) := by
  unfold acquireDevice
  repeat' first
    | exact shape_halt rfl rfl rfl
    | exact shape_createKernels sqrt cfg env
    | refine shape_emit rfl rfl rfl ?_
    | refine shape_emit (by simp [releases]) (by simp [queueOps])
        (by simp [reportedResults]) ?_
    | split

/-- Every run of the body of `main` ends in one of the three shapes. -/
theorem shape_run (sqrt : α → α) (cfg : Config α) (env : Env α) :
    Shape sqrt cfg env (run sqrt cfg env) := by
  unfold run
  refine shape_emit ?_ ?_ ?_ (shape_acquireDevice sqrt cfg env)
  · simp [releases, echoParameters]
  · simp [queueOps, echoParameters]
  · simp [reportedResults]

end General

/-! ## Option processing -/

section OptionHelpers

variable {α : Type}

theorem payoff_of_ite_some {p : Prop} [Decidable p] {x c1 : Config α}
    {y : Option (Config α)} {v : Int} (h : (if p then some x else y) = some c1)
    (hx : x.payoff = v) (hy : y = some c1 → c1.payoff = v) : c1.payoff = v := by
  by_cases hp : p
  · rw [if_pos hp] at h
    injection h with h
    subst h
    exact hx
  · rw [if_neg hp] at h
    exact hy h

theorem payoff_of_ite_none {p : Prop} [Decidable p] {c1 : Config α}
    {y : Option (Config α)} {v : Int} (h : (if p then none else y) = some c1)
    (hy : y = some c1 → c1.payoff = v) : c1.payoff = v := by
  by_cases hp : p
  · rw [if_pos hp] at h
    exact Option.noConfusion h
  · rw [if_neg hp] at h
    exact hy h

end OptionHelpers

section Options

variable {α : Type}

theorem main_of_getoptLoop [DivisionRing α] (sqrt : α → α) (atof : String → α) (argv : List (Char × String))
    (env : Env α) (cfg : Config α) (h : getoptLoop atof Config.initial argv = some cfg) :
    main sqrt atof argv env = run sqrt cfg env := by
  simp [main, h]

/-- Effect of one option on `payoff`. -/
theorem optionCase_payoff (atof : String → α) (c c1 : Config α) (o : Char × String)
    (h : optionCase atof c o = some c1) :
    c1.payoff = if o.1 = 'P' then PUT else if o.1 = 'C' then CALL else c.payoff := by
  obtain ⟨ch, arg⟩ := o
  unfold optionCase at h
  by_cases hP : ch = 'P'
  · subst hP
    simp at h
    subst h
    simp
  by_cases hC : ch = 'C'
  · subst hC
    simp at h
    subst h
    simp
  simp only [hP, hC, if_false] at h
  simp only [hP, hC, if_false]
  refine payoff_of_ite_some h rfl fun h => ?_
  refine payoff_of_ite_some h rfl fun h => ?_
  refine payoff_of_ite_some h rfl fun h => ?_
  refine payoff_of_ite_some h rfl fun h => ?_
  refine payoff_of_ite_none h fun h => ?_
  refine payoff_of_ite_some h rfl fun h => ?_
  refine payoff_of_ite_some h rfl fun h => ?_
  refine payoff_of_ite_some h rfl fun h => ?_
  refine payoff_of_ite_some h rfl fun h => ?_
  refine payoff_of_ite_some h rfl fun h => ?_
  refine payoff_of_ite_some h rfl fun h => ?_
  refine payoff_of_ite_some h rfl fun h => ?_
  injection h with h
  subst h
  rfl

/-- The value of `payoff` after the option loop is that of the last payoff flag. -/
theorem getoptLoop_payoff (atof : String → α) (argv : List (Char × String)) :
    ∀ c c1 : Config α, getoptLoop atof c argv = some c1 →
      c1.payoff = match lastPayoffFlag argv with
        | none => c.payoff
        | some f => if f = 'P' then PUT else CALL := by
  induction argv with
  | nil =>
    intro c c1 h
    simp only [getoptLoop] at h
    injection h with h
    subst h
    rfl
  | cons o os ih =>
    intro c c1 h
    simp only [getoptLoop] at h
    cases hc : optionCase atof c o with
    | none => rw [hc] at h; exact Option.noConfusion h
    | some c2 =>
      rw [hc] at h
      have h1 := ih c2 c1 h
      have h2 := optionCase_payoff atof c c2 o hc
      rw [h1]
      simp only [lastPayoffFlag]
      cases hl : lastPayoffFlag os with
      | some f => rfl
      | none =>
        simp only [h2]
        by_cases hP : o.1 = 'P'
        · simp [hP]
        · by_cases hC : o.1 = 'C'
          · simp [hC]
          · simp [hP, hC]

/-- The kernel selected for the locals left by the option loop. -/
theorem payoffKernelName_of_getoptLoop [DivisionRing α] (atof : String → α) (argv : List (Char × String))
    (cfg : Config α) (h : getoptLoop atof Config.initial argv = some cfg) :
    payoffKernelName cfg.payoff = some (expectedKernel (lastPayoffFlag argv)) := by
  have h1 := getoptLoop_payoff atof argv Config.initial cfg h
  rw [h1]
  cases lastPayoffFlag argv with
  | none => rfl
  | some f =>
    by_cases hf : f = 'P'
    · simp only [hf, if_true, expectedKernel]
      rfl
    · simp only [hf, if_false, expectedKernel]
      rfl

theorem override_of_ite_some {p : Prop} [Decidable p] {x c1 : Config α}
    {y : Option (Config α)} {v : Int} (h : (if p then some x else y) = some c1)
    (hx : x.user_work_groups = v) (hy : y = some c1 → c1.user_work_groups = v) :
    c1.user_work_groups = v := by
  by_cases hp : p
  · rw [if_pos hp] at h
    injection h with h
    subst h
    exact hx
  · rw [if_neg hp] at h
    exact hy h

theorem override_of_ite_none {p : Prop} [Decidable p] {c1 : Config α}
    {y : Option (Config α)} {v : Int} (h : (if p then none else y) = some c1)
    (hy : y = some c1 → c1.user_work_groups = v) : c1.user_work_groups = v := by
  by_cases hp : p
  · rw [if_pos hp] at h
    exact Option.noConfusion h
  · rw [if_neg hp] at h
    exact hy h

/-- Effect of one option on `user_work_groups`. -/
theorem optionCase_user_work_groups (atof : String → α) (c c1 : Config α) (o : Char × String)
    (h : optionCase atof c o = some c1) :
    c1.user_work_groups = if o.1 = 'g' then atoi o.2 else c.user_work_groups := by
  obtain ⟨ch, arg⟩ := o
  unfold optionCase at h
  by_cases hg : ch = 'g'
  · subst hg
    simp at h
    subst h
    simp
  simp only [hg, if_false] at h
  simp only [hg, if_false]
  refine override_of_ite_some h rfl fun h => ?_
  refine override_of_ite_some h rfl fun h => ?_
  refine override_of_ite_some h rfl fun h => ?_
  refine override_of_ite_none h fun h => ?_
  refine override_of_ite_some h rfl fun h => ?_
  refine override_of_ite_some h rfl fun h => ?_
  refine override_of_ite_some h rfl fun h => ?_
  refine override_of_ite_some h rfl fun h => ?_
  refine override_of_ite_some h rfl fun h => ?_
  refine override_of_ite_some h rfl fun h => ?_
  refine override_of_ite_some h rfl fun h => ?_
  refine override_of_ite_some h rfl fun h => ?_
  refine override_of_ite_some h rfl fun h => ?_
  injection h with h
  subst h
  rfl

/-- The value of `user_work_groups` after the option loop is `atoi` of the text
of the last `-g`. -/
theorem getoptLoop_user_work_groups (atof : String → α) (argv : List (Char × String)) :
    ∀ c c1 : Config α, getoptLoop atof c argv = some c1 →
      c1.user_work_groups = match lastOverrideText argv with
        | none => c.user_work_groups
        | some s => atoi s := by
  induction argv with
  | nil =>
    intro c c1 h
    simp only [getoptLoop] at h
    injection h with h
    subst h
    rfl
  | cons o os ih =>
    intro c c1 h
    simp only [getoptLoop] at h
    cases hc : optionCase atof c o with
    | none => rw [hc] at h; exact Option.noConfusion h
    | some c2 =>
      rw [hc] at h
      have h1 := ih c2 c1 h
      have h2 := optionCase_user_work_groups atof c c2 o hc
      rw [h1]
      simp only [lastOverrideText]
      cases hl : lastOverrideText os with
      | some f => rfl
      | none =>
        simp only [h2]
        by_cases hg : o.1 = 'g'
        · simp [hg]
        · simp [hg]

/-- The override left by option processing of a whole command line. -/
theorem user_work_groups_of_getoptLoop [DivisionRing α] (atof : String → α)
    (argv : List (Char × String)) (cfg : Config α)
    (h : getoptLoop atof Config.initial argv = some cfg) :
    cfg.user_work_groups = storedOverride argv := by
  rw [getoptLoop_user_work_groups atof argv Config.initial cfg h]
  unfold storedOverride
  cases lastOverrideText argv <;> rfl

/-- Conversion to `int` yields a value of the 32-bit signed range. -/
theorem toInt32_range (x : Int) : -(2 ^ 31) ≤ toInt32 x ∧ toInt32 x < 2 ^ 31 := by
  unfold toInt32
  have h1 := Int.emod_nonneg (x + 2 ^ 31) (show (2 : Int) ^ 32 ≠ 0 by norm_num)
  have h2 := Int.emod_lt_of_pos (x + 2 ^ 31) (show (0 : Int) < 2 ^ 32 by norm_num)
  constructor <;> omega

/-- Conversion to `int` keeps a value of the 32-bit signed range. -/
theorem toInt32_of_range (x : Int) (h1 : -(2 ^ 31) ≤ x) (h2 : x < 2 ^ 31) : toInt32 x = x := by
  unfold toInt32
  rw [Int.emod_eq_of_lt (by omega) (by omega)]
  omega

/-- The stored override lies in the 32-bit signed range. -/
theorem storedOverride_range (argv : List (Char × String)) :
    -(2 ^ 31) ≤ storedOverride argv ∧ storedOverride argv < 2 ^ 31 := by
  unfold storedOverride
  cases lastOverrideText argv with
  | none => exact ⟨by norm_num, by norm_num⟩
  | some s => exact toInt32_range _

/-- The override rule on a 32-bit `int`. -/
theorem work_groups_spec (g : Int) (M : Nat) (hg : -(2 ^ 31) ≤ g ∧ g < 2 ^ 31) :
    ((0 < g ∧ g < M) → (work_groups g M : Int) = g)
    ∧ (¬ (0 < g ∧ g < M) → work_groups g M = M)
    ∧ work_groups g M ≤ M := by
  have hsz : 0 < g → (toSizeT g : Int) = g := by
    intro h0
    unfold toSizeT
    rw [Int.toNat_of_nonneg (Int.emod_nonneg _ (by norm_num))]
    exact Int.emod_eq_of_lt (le_of_lt h0) (by omega)
  refine ⟨?_, ?_, ?_⟩
  · rintro ⟨h0, h1⟩
    have h2 : toSizeT g < M := by
      have := hsz h0
      omega
    simp only [work_groups, gt_iff_lt, h0, h2, and_self, if_true]
    exact hsz h0
  · intro h
    have h2 : ¬ (g > 0 ∧ toSizeT g < M) := by
      rintro ⟨h0, h1⟩
      have := hsz h0
      exact h ⟨h0, by omega⟩
    simp only [work_groups, h2, if_false]
  · unfold work_groups
    split_ifs with h
    · exact le_of_lt h.2
    · exact le_refl M

end Options

/-! ## Runs in which every device call succeeds -/

section Success

variable {α : Type} [DivisionRing α]

theorem run_of_allSucceed (sqrt : α → α) (cfg : Config α) (env : Env α) (nm : KernelName)
    (hok : env.allSucceed) (hp : payoffKernelName cfg.payoff = some nm) :
    (run sqrt cfg env).status = 0
    ∧ kernelsCreated (run sqrt cfg env).trace =
        [(KernelVar.seeds_kernel, KernelName.uniformSeeds),
         (KernelVar.paths_kernel, KernelName.hestonSimulation),
         (KernelVar.mean_stddev_kernel, KernelName.meanAndStandardDeviation),
         (KernelVar.payoff_kernel, nm)]
    ∧ intArgs (run sqrt cfg env).trace =
        [(KernelVar.seeds_kernel, 0, env.rand),
         (KernelVar.seeds_kernel, 1, data_size cfg.log_2_size),
         (KernelVar.paths_kernel, 7, cfg.divisions),
         (KernelVar.mean_stddev_kernel, 0, data_size cfg.log_2_size)] := by
  obtain ⟨h1, h2, h3, h4, h5, h6, h7, h7e, h8, h10, h15⟩ := success_facts hok
  obtain ⟨a1, a2, a3, a4⟩ := meanArgsErr_of_allSucceed hok
  refine ⟨?_, ?_, ?_⟩ <;>
    simp [run, echoParameters, acquireDevice, createKernels, createBuffers, bindArguments,
      chooseWorkGroups, execute, readBack, cleanup, assign, CL_SUCCESS, hp,
      kernelsCreated, intArgs, Event.created, Event.intArg,
      h1, h2, h3, h4, h5, h6, h7, h7e, h8, h10, h15, a1, a2, a3, a4]

theorem main_of_allSucceed (sqrt : α → α) (atof : String → α) (argv : List (Char × String))
    (env : Env α) (cfg : Config α) (hcfg : getoptLoop atof Config.initial argv = some cfg)
    (hok : env.allSucceed) :
    (main sqrt atof argv env).status = 0
    ∧ Shape sqrt cfg env (main sqrt atof argv env)
    ∧ kernelsCreated (main sqrt atof argv env).trace =
        [(KernelVar.seeds_kernel, KernelName.uniformSeeds),
         (KernelVar.paths_kernel, KernelName.hestonSimulation),
         (KernelVar.mean_stddev_kernel, KernelName.meanAndStandardDeviation),
         (KernelVar.payoff_kernel, expectedKernel (lastPayoffFlag argv))]
    ∧ intArgs (main sqrt atof argv env).trace =
        [(KernelVar.seeds_kernel, 0, env.rand),
         (KernelVar.seeds_kernel, 1, data_size cfg.log_2_size),
         (KernelVar.paths_kernel, 7, cfg.divisions),
         (KernelVar.mean_stddev_kernel, 0, data_size cfg.log_2_size)] := by
  rw [main_of_getoptLoop sqrt atof argv env cfg hcfg]
  obtain ⟨r1, r2, r3⟩ := run_of_allSucceed sqrt cfg env _ hok
    (payoffKernelName_of_getoptLoop atof argv cfg hcfg)
  exact ⟨r1, shape_run sqrt cfg env, r2, r3⟩

/-- What a run that ends with status 0 has done. -/
theorem shape_of_status_zero {sqrt : α → α} {cfg : Config α} {env : Env α} {o : Outcome α}
    (h : Shape sqrt cfg env o) (hs : o.status = 0) :
    releases o.trace = cleanupReleases
    ∧ queueOps o.trace = pipeline (work_count cfg.log_2_size)
        (work_groups cfg.user_work_groups env.work_group_size)
    ∧ reportedResults o.trace = [reported sqrt env.results (data_size cfg.log_2_size)] := by
  rcases h with h | h | h
  · rw [hs] at h
    exact absurd h.1 (by decide)
  · rw [hs] at h
    exact absurd h.1 (by decide)
  · exact h.2

/-- What a run that ends with another status has done. -/
theorem shape_of_status_ne_zero {sqrt : α → α} {cfg : Config α} {env : Env α}
    {o : Outcome α} (h : Shape sqrt cfg env o) (hs : o.status ≠ 0) :
    o.status = 1 ∧ releases o.trace = [] ∧ reportedResults o.trace = [] := by
  rcases h with h | h | h
  · exact ⟨h.1, h.2.1, h.2.2.2⟩
  · exact ⟨h.1, h.2.1, h.2.2.2⟩
  · exact absurd h.1 hs

end Success

/-! ## The claims -/

section Claims

/-- C2 (counterexample): for the command line `-g 4294967297` the integer
given is larger than the device maximum 256, so the claim asks for lane-group
size 256; option processing stores 1 in `user_work_groups`, and with all device
calls succeeding both ND-range dispatches are made with lane-group size 1. -/
theorem oversized_override_wraps :
    strtol "4294967297".toList = 4294967297
    ∧ ¬ ((0 : Int) < 4294967297 ∧ (4294967297 : Int) < (256 : Nat))
    ∧ getoptLoop (fun _ => (0 : ℝ)) Config.initial [('g', "4294967297")]
        = some { (Config.initial : Config ℝ) with user_work_groups := 1 }
    ∧ (Env.ok 256 ((10 : ℝ), 0)).work_group_size = 256
    ∧ queueOps (main Real.sqrt (fun _ => (0 : ℝ)) [('g', "4294967297")]
        (Env.ok 256 ((10 : ℝ), 0))).trace = pipeline 1024 1 := by
  refine ⟨by decide, by decide, rfl, rfl, ?_⟩
  decide

/-- C2 (amended): let `g` be the `int` that option processing stores for `-g`:
`atoi` of the text of the last `-g`, 0 when `-g` is absent; it lies in the
32-bit signed range and is the integer given whenever that integer does.  For
every device maximum `M`, in a run where all device calls succeed the queue
holds both ND-range dispatches with lane-group size `g` when `0 < g < M` and
`M` otherwise; that size never exceeds `M`, and no run on any device dispatches
an ND-range with another lane-group size. -/
theorem lane_group_clamp (α : Type) [DivisionRing α] (sqrt : α → α) (atof : String → α)
    (argv : List (Char × String)) (env : Env α) (cfg : Config α)
    (hcfg : getoptLoop atof Config.initial argv = some cfg) (hok : env.allSucceed) :
    cfg.user_work_groups = storedOverride argv
    ∧ (-(2 ^ 31) ≤ storedOverride argv ∧ storedOverride argv < 2 ^ 31)
    ∧ (lastOverrideText argv = none → storedOverride argv = 0)
    ∧ (∀ s, lastOverrideText argv = some s →
        -(2 ^ 31) ≤ strtol s.toList → strtol s.toList < 2 ^ 31 →
        storedOverride argv = strtol s.toList)
    ∧ queueOps (main sqrt atof argv env).trace
        = pipeline (work_count cfg.log_2_size)
            (work_groups (storedOverride argv) env.work_group_size)
    ∧ ((0 < storedOverride argv ∧ storedOverride argv < env.work_group_size) →
        (work_groups (storedOverride argv) env.work_group_size : Int) = storedOverride argv)
    ∧ (¬ (0 < storedOverride argv ∧ storedOverride argv < env.work_group_size) →
        work_groups (storedOverride argv) env.work_group_size = env.work_group_size)
    ∧ work_groups (storedOverride argv) env.work_group_size ≤ env.work_group_size
    ∧ ∀ (env2 : Env α) (k : KernelVar) (n w : Nat),
        QueueOp.ndrange k n w ∈ queueOps (main sqrt atof argv env2).trace →
        w = work_groups (storedOverride argv) env2.work_group_size := by
  have hg := user_work_groups_of_getoptLoop atof argv cfg hcfg
  have hr := storedOverride_range argv
  obtain ⟨w1, w2, w3⟩ := work_groups_spec (storedOverride argv) env.work_group_size hr
  obtain ⟨hs, hshape, -, -⟩ := main_of_allSucceed sqrt atof argv env cfg hcfg hok
  refine ⟨hg, hr, ?_, ?_, ?_, w1, w2, w3, ?_⟩
  · intro hn
    unfold storedOverride
    rw [hn]
  · intro s hsome h1 h2
    unfold storedOverride
    rw [hsome]
    exact toInt32_of_range _ h1 h2
  · rw [(shape_of_status_zero hshape hs).2.1, hg]
  · intro env2 k n w hmem
    rw [main_of_getoptLoop sqrt atof argv env2 cfg hcfg] at hmem
    rw [← hg]
    rcases shape_run sqrt cfg env2 with h | h | h
    · rw [h.2.2.1] at hmem
      exact absurd hmem (List.not_mem_nil _)
    · rw [h.2.2.1] at hmem
      simp only [pipeline, List.mem_cons, List.mem_nil_iff, or_false] at hmem
      rcases hmem with hmem | hmem | hmem | hmem | hmem | hmem | hmem | hmem | hmem <;>
        first
          | exact QueueOp.noConfusion hmem
          | injection hmem
    · rw [h.2.2.1] at hmem
      simp only [pipeline, List.mem_cons, List.mem_nil_iff, or_false] at hmem
      rcases hmem with hmem | hmem | hmem | hmem | hmem | hmem | hmem | hmem | hmem <;>
        first
          | exact QueueOp.noConfusion hmem
          | injection hmem

theorem lane_group_clamp_witness :
    getoptLoop (fun _ => (0 : ℝ)) Config.initial [('g', "64")]
        = some { (Config.initial : Config ℝ) with user_work_groups := 64 }
    ∧ (Env.ok 256 ((10 : ℝ), 0)).allSucceed
    ∧ storedOverride [('g', "64")] = 64
    ∧ queueOps (main Real.sqrt (fun _ => (0 : ℝ)) [('g', "64")]
        (Env.ok 256 ((10 : ℝ), 0))).trace
        = pipeline (work_count 10) (work_groups (storedOverride [('g', "64")]) 256)
    ∧ work_groups (storedOverride [('g', "64")]) 256 = 64 :=
  ⟨rfl, by decide, by decide,
   (lane_group_clamp ℝ Real.sqrt (fun _ => (0 : ℝ)) [('g', "64")] (Env.ok 256 ((10 : ℝ), 0))
      { (Config.initial : Config ℝ) with user_work_groups := 64 } rfl (by decide)).2.2.2.2.1,
   by decide⟩

/-- C4 (the code at the failing input): for the command line `-g 3` on a
device with maximum 256, the lane-group size 3 does not divide the 1024 paths;
in the run where the device refuses both ND-range dispatches and every other
call succeeds, the `err` accumulated up to `clFinish` is not `CL_SUCCESS`, yet
`main` ends with status 0 and prints the `Expected Payoff` line. -/
theorem dispatch_error_is_dropped :
    getoptLoop (fun _ => (0 : ℝ)) Config.initial [('g', "3")]
        = some { (Config.initial : Config ℝ) with user_work_groups := 3 }
    ∧ ¬ (work_groups 3 256 ∣ work_count 10)
    ∧ Env.ndrangeRejected.clEnqueueNDRangeKernel KernelVar.paths_kernel ≠ CL_SUCCESS
    ∧ executeErr Env.ndrangeRejected 0 ≠ CL_SUCCESS
    ∧ Env.ndrangeRejected.clEnqueueReadBuffer = CL_SUCCESS
    ∧ (main Real.sqrt (fun _ => (0 : ℝ)) [('g', "3")] Env.ndrangeRejected).status = 0
    ∧ (reportedResults
        (main Real.sqrt (fun _ => (0 : ℝ)) [('g', "3")] Env.ndrangeRejected).trace).length
        = 1 := by
  have hmain : main Real.sqrt (fun _ => (0 : ℝ)) [('g', "3")] Env.ndrangeRejected
      = run Real.sqrt { (Config.initial : Config ℝ) with user_work_groups := 3 }
          Env.ndrangeRejected := rfl
  have hs : (run Real.sqrt { (Config.initial : Config ℝ) with user_work_groups := 3 }
      Env.ndrangeRejected).status = 0 := by decide
  refine ⟨rfl, by decide, by decide, by decide, rfl, ?_, ?_⟩
  · rw [hmain]
    exact hs
  · rw [hmain, (shape_of_status_zero (shape_run _ _ _) hs).2.2]
    rfl

/-- C5: for every command line that gets past option processing, `payoff`
holds `PRICE`, `CALL` or `PUT`; the `switch` selects `straightPrice` when
neither `-P` nor `-C` is given, `vanillaPut` when the last payoff flag is `-P`
and `vanillaCall` when it is `-C`, so its `default:` branch is not taken; and
when all device calls succeed that entry point is the one created for
`payoff_kernel`, the kernel of the third stage. -/
theorem payoff_kernel_selection (α : Type) [DivisionRing α] (sqrt : α → α)
    (atof : String → α) (argv : List (Char × String)) (cfg : Config α)
    (hcfg : getoptLoop atof Config.initial argv = some cfg) :
    (cfg.payoff = PRICE ∨ cfg.payoff = CALL ∨ cfg.payoff = PUT)
    ∧ payoffKernelName cfg.payoff = some (expectedKernel (lastPayoffFlag argv))
    ∧ payoffKernelName cfg.payoff ≠ none
    ∧ ∀ env : Env α, env.allSucceed →
        kernelsCreated (main sqrt atof argv env).trace =
          [(KernelVar.seeds_kernel, KernelName.uniformSeeds),
           (KernelVar.paths_kernel, KernelName.hestonSimulation),
           (KernelVar.mean_stddev_kernel, KernelName.meanAndStandardDeviation),
           (KernelVar.payoff_kernel, expectedKernel (lastPayoffFlag argv))]
        ∧ (queueOps (main sqrt atof argv env).trace).get? 4
            = some (QueueOp.ndrange KernelVar.payoff_kernel (work_count cfg.log_2_size)
                (work_groups cfg.user_work_groups env.work_group_size)) := by
  have hk := payoffKernelName_of_getoptLoop atof argv cfg hcfg
  refine ⟨?_, hk, ?_, ?_⟩
  · have h1 := getoptLoop_payoff atof argv Config.initial cfg hcfg
    rw [h1]
    cases lastPayoffFlag argv with
    | none => exact Or.inl rfl
    | some f =>
      by_cases hf : f = 'P' <;> simp [hf, PRICE, CALL, PUT]
  · rw [hk]
    exact Option.noConfusion
  · intro env hok
    obtain ⟨hs, hshape, hcr, -⟩ := main_of_allSucceed sqrt atof argv env cfg hcfg hok
    refine ⟨hcr, ?_⟩
    rw [(shape_of_status_zero hshape hs).2.1]
    rfl

theorem payoff_kernel_selection_witness :
    getoptLoop (fun _ => (0 : ℝ)) Config.initial [('C', ""), ('P', "")]
      = some { (Config.initial : Config ℝ) with payoff := PUT }
    ∧ payoffKernelName ({ (Config.initial : Config ℝ) with payoff := PUT }).payoff
      = some (expectedKernel (lastPayoffFlag [('C', ""), ('P', "")]))
    ∧ expectedKernel (lastPayoffFlag [('C', ""), ('P', "")]) = KernelName.vanillaPut :=
  ⟨rfl,
   (payoff_kernel_selection ℝ Real.sqrt (fun _ => (0 : ℝ)) [('C', ""), ('P', "")]
      { (Config.initial : Config ℝ) with payoff := PUT } rfl).2.1,
   by decide⟩

/-- C6 (counterexample): in the run where the context is created and the
command queue is not, `main` ends with status 1 without releasing the context;
in the run where every call succeeds, `main` ends with status 0 having created
the price buffer and never released it. -/
theorem release_on_every_path_fails :
    (Env.queueFails.clCreateContext ≠ 0
      ∧ (main Real.sqrt (fun _ => (0 : ℝ)) [] Env.queueFails).status = 1
      ∧ Resource.context ∈
          acquisitions (main Real.sqrt (fun _ => (0 : ℝ)) [] Env.queueFails).trace
      ∧ releases (main Real.sqrt (fun _ => (0 : ℝ)) [] Env.queueFails).trace = [])
    ∧ ((main Real.sqrt (fun _ => (0 : ℝ)) [] (Env.ok 256 ((10 : ℝ), 0))).status = 0
      ∧ Resource.buffer BufferVar.price_output ∈
          acquisitions (main Real.sqrt (fun _ => (0 : ℝ)) [] (Env.ok 256 ((10 : ℝ), 0))).trace
      ∧ Resource.buffer BufferVar.price_output ∉
          releases (main Real.sqrt (fun _ => (0 : ℝ)) [] (Env.ok 256 ((10 : ℝ), 0))).trace) := by
  decide

/-- C6 (amended): on the exit path with status 0, `main` releases the seed
buffer, the program, the seeding kernel, the command queue and the context,
each exactly once, the seed buffer and the program before the context; on every
other exit path it releases nothing. -/
theorem release_discipline (α : Type) [DivisionRing α] (sqrt : α → α) (atof : String → α)
    (argv : List (Char × String)) (env : Env α) :
    ((main sqrt atof argv env).status = 0 →
      (releases (main sqrt atof argv env).trace).count (Resource.buffer BufferVar.seed_output) = 1
      ∧ (releases (main sqrt atof argv env).trace).count Resource.program = 1
      ∧ (releases (main sqrt atof argv env).trace).count
          (Resource.kernel KernelVar.seeds_kernel) = 1
      ∧ (releases (main sqrt atof argv env).trace).count Resource.commands = 1
      ∧ (releases (main sqrt atof argv env).trace).count Resource.context = 1
      ∧ (releases (main sqrt atof argv env).trace).indexOf (Resource.buffer BufferVar.seed_output)
          < (releases (main sqrt atof argv env).trace).indexOf Resource.context
      ∧ (releases (main sqrt atof argv env).trace).indexOf Resource.program
          < (releases (main sqrt atof argv env).trace).indexOf Resource.context)
    ∧ ((main sqrt atof argv env).status ≠ 0 →
      (main sqrt atof argv env).status = 1 ∧ releases (main sqrt atof argv env).trace = []) := by
  cases hcfg : getoptLoop atof Config.initial argv with
  | none =>
    have hm : main sqrt atof argv env = halt [Event.printf Text.usage []] 1 := by
      simp [main, hcfg]
    rw [hm]
    refine ⟨fun h => absurd h (show ¬ ((1 : Int) = 0) by decide), fun _ => ⟨rfl, rfl⟩⟩
  | some cfg =>
    rw [main_of_getoptLoop sqrt atof argv env cfg hcfg]
    have hshape := shape_run sqrt cfg env
    refine ⟨fun hs => ?_, fun hs => ?_⟩
    · rw [(shape_of_status_zero hshape hs).1]
      decide
    · obtain ⟨h1, h2, -⟩ := shape_of_status_ne_zero hshape hs
      exact ⟨h1, h2⟩

theorem release_discipline_witness :
    (main Real.sqrt (fun _ => (0 : ℝ)) [] (Env.ok 256 ((10 : ℝ), 0))).status = 0
    ∧ (releases (main Real.sqrt (fun _ => (0 : ℝ)) [] (Env.ok 256 ((10 : ℝ), 0))).trace).count
        Resource.context = 1
    ∧ (main Real.sqrt (fun _ => (0 : ℝ)) [] Env.queueFails).status ≠ 0
    ∧ releases (main Real.sqrt (fun _ => (0 : ℝ)) [] Env.queueFails).trace = [] :=
  ⟨by decide,
   ((release_discipline ℝ Real.sqrt (fun _ => (0 : ℝ)) [] (Env.ok 256 ((10 : ℝ), 0))).1
      (by decide)).2.2.2.2.1,
   by decide,
   ((release_discipline ℝ Real.sqrt (fun _ => (0 : ℝ)) [] Env.queueFails).2 (by decide)).2⟩

/-- C7 (the code at the failing input): in the run where binding argument 0 of
the seeding kernel fails and every other call succeeds, the `err` tested at line
306 is `CL_SUCCESS`; `main` enqueues all four stages, ends with status 0 and
prints the `Expected Payoff` line. -/
theorem seed_binding_error_is_dropped :
    Env.seedBindingFails.clSetKernelArg KernelVar.seeds_kernel 0 ≠ CL_SUCCESS
    ∧ seedArgsErr Env.seedBindingFails = CL_SUCCESS
    ∧ (main Real.sqrt (fun _ => (0 : ℝ)) [] Env.seedBindingFails).status = 0
    ∧ queueOps (main Real.sqrt (fun _ => (0 : ℝ)) [] Env.seedBindingFails).trace
        = pipeline 1024 256
    ∧ (reportedResults
        (main Real.sqrt (fun _ => (0 : ℝ)) [] Env.seedBindingFails).trace).length = 1 := by
  have hmain : main Real.sqrt (fun _ => (0 : ℝ)) [] Env.seedBindingFails
      = run Real.sqrt Config.initial Env.seedBindingFails := rfl
  have hs : (run Real.sqrt Config.initial Env.seedBindingFails).status = 0 := by decide
  refine ⟨by decide, by decide, ?_, ?_, ?_⟩
  · rw [hmain]
    exact hs
  · decide
  · rw [hmain, (shape_of_status_zero (shape_run _ _ _) hs).2.2]
    rfl

/-- C9 (counterexample): the command line `-p -1` leaves `log_2_size = -1`, and
the path count computed from it is 0, which is not a power of two. -/
theorem path_count_not_power_of_two :
    getoptLoop (fun _ => (0 : ℝ)) Config.initial [('p', "-1")]
        = some { (Config.initial : Config ℝ) with log_2_size := -1 }
    ∧ data_size (atoi "-1") = 0
    ∧ ¬ ∃ k : Nat, data_size (atoi "-1") = 2 ^ k := by
  refine ⟨rfl, by decide, ?_⟩
  rintro ⟨k, hk⟩
  have h0 : data_size (atoi "-1") = 0 := by decide
  rw [h0] at hk
  have : (0 : Int) < 2 ^ k := by positivity
  omega

/-- C9 (amended): when the exponent left in `log_2_size` by option processing
(10 by default) lies between 0 and 30, `data_size` is that power of two, it is
positive and fits a 32-bit signed integer, and in a run where all device calls
succeed this same value is the global work size of both ND-range dispatches and
the count bound to the seeding and the reduction kernels. -/
theorem path_count_power_of_two (α : Type) [DivisionRing α] (sqrt : α → α)
    (atof : String → α) (argv : List (Char × String)) (env : Env α) (cfg : Config α)
    (hcfg : getoptLoop atof Config.initial argv = some cfg)
    (hp : 0 ≤ cfg.log_2_size ∧ cfg.log_2_size ≤ 30) (hok : env.allSucceed) :
    data_size cfg.log_2_size = 2 ^ cfg.log_2_size.toNat
    ∧ 0 < data_size cfg.log_2_size
    ∧ data_size cfg.log_2_size < 2 ^ 31
    ∧ data_size (Config.initial : Config α).log_2_size = 2 ^ 10
    ∧ work_count cfg.log_2_size = 2 ^ cfg.log_2_size.toNat
    ∧ queueOps (main sqrt atof argv env).trace
        = pipeline (2 ^ cfg.log_2_size.toNat)
            (work_groups cfg.user_work_groups env.work_group_size)
    ∧ intArgs (main sqrt atof argv env).trace =
        [(KernelVar.seeds_kernel, 0, env.rand),
         (KernelVar.seeds_kernel, 1, 2 ^ cfg.log_2_size.toNat),
         (KernelVar.paths_kernel, 7, cfg.divisions),
         (KernelVar.mean_stddev_kernel, 0, 2 ^ cfg.log_2_size.toNat)] := by
  obtain ⟨hs, hshape, -, hargs⟩ := main_of_allSucceed sqrt atof argv env cfg hcfg hok
  have hd : data_size cfg.log_2_size = 2 ^ cfg.log_2_size.toNat := by
    unfold data_size
    rw [if_neg (by omega), if_pos hp.2]
  have hle : cfg.log_2_size.toNat ≤ 30 := by omega
  have hlt : (2 : Int) ^ cfg.log_2_size.toNat < 2 ^ 31 :=
    pow_lt_pow_right₀ (by norm_num) (by omega)
  have hw : work_count cfg.log_2_size = 2 ^ cfg.log_2_size.toNat := by
    unfold work_count toSizeT
    rw [hd]
    have h1 : (2 : Int) ^ cfg.log_2_size.toNat % 2 ^ 64 = 2 ^ cfg.log_2_size.toNat :=
      Int.emod_eq_of_lt (by positivity) (by omega)
    rw [h1]
    have h2 : ((2 : Int) ^ cfg.log_2_size.toNat) = (((2 : Nat) ^ cfg.log_2_size.toNat : Nat) : Int) := by
      push_cast
      rfl
    rw [h2, Int.toNat_natCast]
  refine ⟨hd, ?_, ?_, ?_, hw, ?_, ?_⟩
  · rw [hd]
    positivity
  · rw [hd]
    exact hlt
  · rfl
  · rw [(shape_of_status_zero hshape hs).2.1, hw]
  · rw [hargs, hd]

theorem path_count_power_of_two_witness :
    getoptLoop (fun _ => (0 : ℝ)) Config.initial [('p', "12")]
        = some { (Config.initial : Config ℝ) with log_2_size := 12 }
    ∧ ((0 : Int) ≤ 12 ∧ (12 : Int) ≤ 30)
    ∧ (Env.ok 256 ((10 : ℝ), 0)).allSucceed
    ∧ data_size 12 = 2 ^ (12 : Int).toNat :=
  ⟨rfl, by decide, by decide,
   (path_count_power_of_two ℝ Real.sqrt (fun _ => (0 : ℝ)) [('p', "12")]
      (Env.ok 256 ((10 : ℝ), 0)) { (Config.initial : Config ℝ) with log_2_size := 12 }
      rfl (by decide) (by decide)).1⟩

/-- C10: if the path count `work_count` is `2 ^ p`, the device maximum `M` is
a power of two, the user override `g` is not positive or is a power of two,
and the chosen lane-group size `w = work_groups g M` is at most the path count,
then in a run where all device calls succeed both ND-range dispatches are made
with global size the path count and local size `w`, and `w` divides the path
count, so every ND-range in the queue has a global size that is a multiple of
its local size.  The clamping rule alone does not give this: `-p 2 -g 3` on a
device with maximum 4 dispatches 4 lanes in groups of 3, and `-p 2` on a device
with maximum 8 dispatches 4 lanes in groups of 8. -/
theorem lane_group_divides (α : Type) [DivisionRing α] (sqrt : α → α) (atof : String → α)
    (argv : List (Char × String)) (env : Env α) (cfg : Config α) (p : Nat)
    (hcfg : getoptLoop atof Config.initial argv = some cfg) (hok : env.allSucceed)
    (hN : work_count cfg.log_2_size = 2 ^ p) (hM : ∃ k : Nat, env.work_group_size = 2 ^ k)
    (hg : cfg.user_work_groups ≤ 0 ∨ ∃ j : Nat, cfg.user_work_groups = 2 ^ j)
    (hw : work_groups cfg.user_work_groups env.work_group_size ≤ work_count cfg.log_2_size) :
    queueOps (main sqrt atof argv env).trace
        = pipeline (work_count cfg.log_2_size)
            (work_groups cfg.user_work_groups env.work_group_size)
    ∧ work_groups cfg.user_work_groups env.work_group_size ∣ work_count cfg.log_2_size
    ∧ (∀ (k : KernelVar) (n w : Nat),
        QueueOp.ndrange k n w ∈ queueOps (main sqrt atof argv env).trace → w ∣ n)
    ∧ (queueOps (main Real.sqrt (fun _ => (0 : ℝ)) [('p', "2"), ('g', "3")]
          (Env.ndrangeRejectedAt 4)).trace = pipeline 4 3 ∧ ¬ (3 ∣ 4))
    ∧ (queueOps (main Real.sqrt (fun _ => (0 : ℝ)) [('p', "2")]
          (Env.ndrangeRejectedAt 8)).trace = pipeline 4 8 ∧ ¬ (8 ∣ 4)) := by
  obtain ⟨hs, hshape, -, -⟩ := main_of_allSucceed sqrt atof argv env cfg hcfg hok
  have hq := (shape_of_status_zero hshape hs).2.1
  have hr : -(2 ^ 31) ≤ cfg.user_work_groups ∧ cfg.user_work_groups < 2 ^ 31 := by
    rw [user_work_groups_of_getoptLoop atof argv cfg hcfg]
    exact storedOverride_range argv
  have hpow : ∃ i : Nat, work_groups cfg.user_work_groups env.work_group_size = 2 ^ i := by
    obtain ⟨k, hk⟩ := hM
    unfold work_groups
    split_ifs with hc
    · rcases hg with hg | ⟨j, hj⟩
      · omega
      · refine ⟨j, ?_⟩
        unfold toSizeT
        have h1 : cfg.user_work_groups % 2 ^ 64 = cfg.user_work_groups :=
          Int.emod_eq_of_lt (by omega) (by omega)
        rw [h1, hj]
        have h2 : ((2 : Int) ^ j) = (((2 : Nat) ^ j : Nat) : Int) := by
          push_cast
          rfl
        rw [h2, Int.toNat_natCast]
    · exact ⟨k, hk⟩
  have hdiv : work_groups cfg.user_work_groups env.work_group_size
      ∣ work_count cfg.log_2_size := by
    obtain ⟨i, hi⟩ := hpow
    rw [hi, hN] at hw ⊢
    have hip : i ≤ p := (Nat.pow_le_pow_iff_right (by norm_num)).1 hw
    exact pow_dvd_pow 2 hip
  refine ⟨hq, hdiv, ?_, ⟨by decide, by decide⟩, ⟨by decide, by decide⟩⟩
  intro k n w hmem
  rw [hq] at hmem
  simp only [pipeline, List.mem_cons, List.mem_nil_iff, or_false] at hmem
  rcases hmem with hmem | hmem | hmem | hmem | hmem | hmem | hmem | hmem | hmem <;>
    first
      | exact QueueOp.noConfusion hmem
      | (injection hmem with e1 e2 e3
         rw [e2, e3]
         exact hdiv)

theorem lane_group_divides_witness :
    getoptLoop (fun _ => (0 : ℝ)) Config.initial [('g', "64")]
        = some { (Config.initial : Config ℝ) with user_work_groups := 64 }
    ∧ (Env.ok 256 ((10 : ℝ), 0)).allSucceed
    ∧ work_count 10 = 2 ^ 10
    ∧ (∃ k : Nat, (256 : Nat) = 2 ^ k)
    ∧ ((64 : Int) ≤ 0 ∨ ∃ j : Nat, (64 : Int) = 2 ^ j)
    ∧ work_groups 64 256 ≤ work_count 10
    ∧ queueOps (main Real.sqrt (fun _ => (0 : ℝ)) [('g', "64")]
        (Env.ok 256 ((10 : ℝ), 0))).trace = pipeline (work_count 10) (work_groups 64 256)
    ∧ work_groups 64 256 ∣ work_count 10 :=
  ⟨rfl, by decide, by decide, ⟨8, by norm_num⟩, Or.inr ⟨6, by norm_num⟩, by decide,
   (lane_group_divides ℝ Real.sqrt (fun _ => (0 : ℝ)) [('g', "64")]
      (Env.ok 256 ((10 : ℝ), 0))
      { (Config.initial : Config ℝ) with user_work_groups := 64 } 10 rfl (by decide)
      (by decide) ⟨8, rfl⟩ (Or.inr ⟨6, by norm_num⟩) (by decide)).1,
   (lane_group_divides ℝ Real.sqrt (fun _ => (0 : ℝ)) [('g', "64")]
      (Env.ok 256 ((10 : ℝ), 0))
      { (Config.initial : Config ℝ) with user_work_groups := 64 } 10 rfl (by decide)
      (by decide) ⟨8, rfl⟩ (Or.inr ⟨6, by norm_num⟩) (by decide)).2.1⟩

end Claims

end HestonHost
